import Mathlib

/-
Verification of the ouzel render-device command machinery
(src/engine/graphics/direct3d11/D3D11RenderDevice.cpp).

The D3D11 render device drains command buffers pulled from a queue on a
dedicated render thread (RenderDevice::process / RenderDevice::renderMain) and
dispatches each command against the backend while maintaining a resource table
and a small amount of per-frame session state.  The definitions below are a
shallow embedding of that code: device state is a record, backend calls are
recorded as an effect trace, exceptions become an error result that carries the
effects performed before the throw.
-/

namespace Ouzel

/-- Cull modes of SetPipelineStateCommand (setPipelineState case, lines 635-641). -/
inductive CullMode
  | none
  | front
  | back
  deriving DecidableEq

/-- Fill modes of SetPipelineStateCommand (setPipelineState case, lines 643-648). -/
inductive FillMode
  | solid
  | wireframe
  deriving DecidableEq

/-- A shader resource, reduced to what the command machinery inspects: the
declared per-slot byte sizes of its fragment and vertex shader constant
locations (Shader::getFragmentShaderConstantLocations /
getVertexShaderConstantLocations, each Location carrying a byte size). -/
structure ShaderRes where
  fragLocSizes : List Nat
  vertLocSizes : List Nat
  deriving DecidableEq

/-- Modelled from the spec: the D3D11RenderTarget class itself is not under
src; section 4.3 requires clearing "each of its color attachments and (if
present) its depth/stencil attachment", so a render target resource holds one
render-target view per color attachment and an optional depth/stencil view.
View objects are identified by opaque numeric ids. -/
structure RenderTargetRes where
  colorViews : List Nat
  depthStencilView : Option Nat
  deriving DecidableEq

/-- A resource table entry (the owning objects stored in
RenderDevice::resources).  Payloads irrelevant to the claims are opaque. -/
inductive Resource
  | renderTarget (rt : RenderTargetRes)
  | buffer (size : Nat)
  | shader (sh : ShaderRes)
  | texture (id : Nat)
  | blendState (id : Nat)
  deriving DecidableEq

/-- The command variants the claims are about, carrying only value data and
handles, exactly as the corresponding ouzel commands do.  Floating-point
payloads (clear color components, scissor rectangle, constant values) are
carried as opaque numeric tokens since the device never computes with them. -/
inductive Command
  | resize (width height : Nat)
  | present
  | deleteResource (handle : Nat)
  | initRenderTarget (handle : Nat) (colorTextures : List Nat) (depthTexture : Nat)
  | setRenderTarget (handle : Nat)
  | clearRenderTarget (clearColorBuffer clearDepthBuffer clearStencilBuffer : Bool)
      (clearColor clearDepth clearStencil : Nat)
  | setScissorTest (enabled : Bool) (rect : Nat)
  | setPipelineState (blendState shader : Nat) (cullMode : CullMode) (fillMode : FillMode)
  | initBlendState (handle : Nat) (desc : Nat)
  | initBuffer (handle : Nat) (size : Nat)
  | initShader (handle : Nat) (sh : ShaderRes)
  | initTexture (handle : Nat) (desc : Nat)
  | setShaderConstants (fragmentShaderConstants vertexShaderConstants : List (List Nat))
  deriving DecidableEq

/-- Whether a command is the present command (the check
command->type == Command::Type::present at line 895). -/
def Command.isPresent : Command → Bool
  | Command.present => true
  | _ => false

/-- Backend calls issued while executing commands, recorded as a trace. -/
inductive Effect
  | clearRenderTargetView (view : Nat) (color : Nat)
  | clearDepthStencilView (view : Option Nat) (clearDepthFlag clearStencilFlag : Bool)
      (depth stencil : Nat)
  | rsSetScissorRects (rect : Nat)
  | rsSetState (index : Nat)
  | omSetRenderTargets (views : List Nat) (depthView : Option Nat)
  | omSetBlendState (blend : Option Nat)
  | bindShaders (shaderBound : Bool)
  | resolveRenderTarget
  | presentSwapChain
  | uploadConstantBuffer (fragmentStage : Bool) (data : List Nat)
  | setConstantBuffers (fragmentStage : Bool)
  deriving DecidableEq

/-- The backbuffer-related device objects, identified by opaque ids drawn from
an allocation counter so that reallocation is observable. -/
structure FrameBuffer where
  backBufferId : Nat
  renderTargetViewId : Nat
  depthStencilTextureId : Option Nat
  depthStencilViewId : Option Nat
  frameBufferWidth : Nat
  frameBufferHeight : Nat
  nextId : Nat
  deriving DecidableEq

/-- Ids held by a frame buffer were allocated before the counter's current
value (true of any state produced by init and preserved by resizing). -/
def FrameBuffer.wf (fb : FrameBuffer) : Prop :=
  fb.backBufferId < fb.nextId ∧ fb.renderTargetViewId < fb.nextId ∧
  (∀ i, fb.depthStencilTextureId = Option.some i → i < fb.nextId) ∧
  (∀ i, fb.depthStencilViewId = Option.some i → i < fb.nextId)

/-- Persistent device state: the resource table, the depth flag fixed at init,
and the backbuffer objects. -/
structure DevState where
  resources : List (Option Resource)
  depth : Bool
  fb : FrameBuffer
  deriving DecidableEq

/-- Per-frame session state: the locals of RenderDevice::process (lines
370-374), reset each time process() is entered and never persisted across a
present. -/
structure Session where
  fillModeIndex : Nat
  scissorEnableIndex : Nat
  cullModeIndex : Nat
  currentRenderTarget : Option RenderTargetRes
  currentShader : Option ShaderRes
  deriving DecidableEq

/-- The session at the top of process(): zero indices, no render target
override, no shader. -/
def initSession : Session :=
  { fillModeIndex := 0
    scissorEnableIndex := 0
    cullModeIndex := 0
    currentRenderTarget := Option.none
    currentShader := Option.none }

/-- Width of the unsigned handle arithmetic (64-bit size_t). -/
def sizetWidth : Nat := 2 ^ 64

/-- The slot index computed by `resources[handle - 1]`: unsigned subtraction,
wrapping at the size_t width when the handle is 0 (deleteResource case, line
416, and the init* store sites). -/
def slotIdx (h : Nat) : Nat := (h + (sizetWidth - 1)) % sizetWidth

/-- The init-command store pattern (e.g. initBuffer case, lines 727-729): grow
the table to exactly `handle` slots when the handle exceeds the current size,
appending empty slots, then assign slot handle-1.  An out-of-range write (only
possible through the handle-0 underflow) is undefined behaviour in the source
and is modelled as an error. -/
def storeResource (resources : List (Option Resource)) (handle : Nat) (r : Resource) :
    Except String (List (Option Resource)) :=
  let grown := if handle > resources.length
    then resources ++ List.replicate (handle - resources.length) Option.none
    else resources
  if slotIdx handle < grown.length
  then Except.ok (grown.set (slotIdx handle) (Option.some r))
  else Except.error "Out of range resource access"

/-- Modelled from the spec: the getResource accessor is declared in the render
device header, which is not under src.  Handle 0 is the "no resource" sentinel
and yields no resource; otherwise slot handle-1 is read, an out-of-range read
being a fatal programmer error (section 4.1). -/
def getRes (d : DevState) (h : Nat) : Except String (Option Resource) :=
  if h = 0 then Except.ok Option.none
  else match d.resources[h - 1]? with
    | Option.some slot => Except.ok slot
    | Option.none => Except.error "Out of range resource access"

/-- getResource specialised to shaders (a cast to the wrong resource kind is
undefined behaviour in the source and is modelled as an error). -/
def getShaderRes (d : DevState) (h : Nat) : Except String (Option ShaderRes) :=
  match getRes d h with
  | Except.error e => Except.error e
  | Except.ok Option.none => Except.ok Option.none
  | Except.ok (Option.some (Resource.shader sh)) => Except.ok (Option.some sh)
  | Except.ok (Option.some _) => Except.error "Invalid resource type"

/-- getResource specialised to blend states. -/
def getBlendStateRes (d : DevState) (h : Nat) : Except String (Option Nat) :=
  match getRes d h with
  | Except.error e => Except.error e
  | Except.ok Option.none => Except.ok Option.none
  | Except.ok (Option.some (Resource.blendState i)) => Except.ok (Option.some i)
  | Except.ok (Option.some _) => Except.error "Invalid resource type"

/-- getResource specialised to textures. -/
def getTextureRes (d : DevState) (h : Nat) : Except String (Option Nat) :=
  match getRes d h with
  | Except.error e => Except.error e
  | Except.ok Option.none => Except.ok Option.none
  | Except.ok (Option.some (Resource.texture i)) => Except.ok (Option.some i)
  | Except.ok (Option.some _) => Except.error "Invalid resource type"

/-- getResource specialised to render targets. -/
def getRenderTargetRes (d : DevState) (h : Nat) : Except String (Option RenderTargetRes) :=
  match getRes d h with
  | Except.error e => Except.error e
  | Except.ok Option.none => Except.ok Option.none
  | Except.ok (Option.some (Resource.renderTarget rt)) => Except.ok (Option.some rt)
  | Except.ok (Option.some _) => Except.error "Invalid resource type"

/-- Resolve a list of color texture handles for initRenderTarget (lines
424-426).  The std::set pointer ordering is abstracted: one entry per resolved
texture in the order given. -/
def resolveTextures (d : DevState) : List Nat → Except String (List (Option Nat))
  | [] => Except.ok []
  | h :: hs =>
    match getTextureRes d h with
    | Except.error e => Except.error e
    | Except.ok t =>
      match resolveTextures d hs with
      | Except.error e => Except.error e
      | Except.ok ts => Except.ok (t :: ts)

/-- The rasterizer-state index computed at both selection sites (lines 541 and
650): fillModeIndex * 6 + scissorEnableIndex * 3 + cullModeIndex. -/
def rasterizerStateIndex (fillModeIndex scissorEnableIndex cullModeIndex : Nat) : Nat :=
  fillModeIndex * 6 + scissorEnableIndex * 3 + cullModeIndex

/-- Description of one precomputed rasterizer state (the table entries created
at init, lines 272-299). -/
structure RasterizerStateDesc where
  fillMode : Nat
  scissorEnable : Nat
  cullMode : Nat
  deriving DecidableEq

/-- The 12 rasterizer states created at device init by the triple loop over
fillMode 0..1, scissorEnable 0..1, cullMode 0..2, appended in loop order. -/
def rasterizerStates : List RasterizerStateDesc :=
  (List.range 2).flatMap fun fillMode =>
    (List.range 2).flatMap fun scissorEnable =>
      (List.range 3).map fun cullMode =>
        { fillMode := fillMode, scissorEnable := scissorEnable, cullMode := cullMode }

/-- The cull-mode axis index assigned by setPipelineState (lines 635-641). -/
def cullModeIdx : CullMode → Nat
  | CullMode.none => 0
  | CullMode.front => 1
  | CullMode.back => 2

/-- The fill-mode axis index assigned by setPipelineState (lines 643-648). -/
def fillModeIdx : FillMode → Nat
  | FillMode.solid => 0
  | FillMode.wireframe => 1

/-- The per-constant size check and data gathering loop of the
setShaderConstants case (lines 776-785 and 802-811): each constant is a vector
of 4-byte floats whose byte size must equal the declared location size. -/
def gatherConstants (stage : String) : List (List Nat) → List Nat → Except String (List Nat)
  | [], _ => Except.ok []
  | c :: cs, locSize :: locSizes =>
    if 4 * c.length ≠ locSize
    then Except.error ("Invalid " ++ stage ++ " shader constant size")
    else
      match gatherConstants stage cs locSizes with
      | Except.error e => Except.error e
      | Except.ok rest => Except.ok (c ++ rest)
  | _ :: _, [] => Except.error ("Invalid " ++ stage ++ " shader constant size")

/-- One stage of the setShaderConstants case: the count check against the
declared locations (lines 771-772 / 797-798) followed by the per-constant size
checks and data gathering. -/
def packConstants (stage : String) (consts : List (List Nat)) (locSizes : List Nat) :
    Except String (List Nat) :=
  if consts.length > locSizes.length
  then Except.error ("Invalid " ++ stage ++ " shader constant size")
  else gatherConstants stage consts locSizes

/-- RenderDevice::resizeBackBuffer (lines 1026-1079): no-op when the requested
dimensions equal the current ones; otherwise the swap chain buffers are
resized, a fresh backbuffer and render target view are retrieved, and, when
depth is on, a fresh depth/stencil texture and view are created. -/
def resizeBackBuffer (depth : Bool) (fb : FrameBuffer) (newWidth newHeight : Nat) :
    FrameBuffer :=
  if fb.frameBufferWidth ≠ newWidth ∨ fb.frameBufferHeight ≠ newHeight then
    if depth then
      { backBufferId := fb.nextId
        renderTargetViewId := fb.nextId + 1
        depthStencilTextureId := Option.some (fb.nextId + 2)
        depthStencilViewId := Option.some (fb.nextId + 3)
        frameBufferWidth := newWidth
        frameBufferHeight := newHeight
        nextId := fb.nextId + 4 }
    else
      { backBufferId := fb.nextId
        renderTargetViewId := fb.nextId + 1
        depthStencilTextureId := fb.depthStencilTextureId
        depthStencilViewId := fb.depthStencilViewId
        frameBufferWidth := newWidth
        frameBufferHeight := newHeight
        nextId := fb.nextId + 2 }
  else fb

/-- Result of executing one command: either normal completion or a thrown
exception; both carry the backend effects performed before returning. -/
inductive ExecResult
  | ok (d : DevState) (s : Session) (effects : List Effect)
  | err (e : String) (d : DevState) (s : Session) (effects : List Effect)
  deriving DecidableEq

/-- Execution of one command, following the dispatch switch of
RenderDevice::process (lines 394-893) case by case. -/
def execCommand (d : DevState) (s : Session) : Command → ExecResult
  | Command.resize w h =>
    ExecResult.ok { d with fb := resizeBackBuffer d.depth d.fb w h } s []
  | Command.present =>
    let resolveEffects :=
      if s.currentRenderTarget.isSome then [Effect.resolveRenderTarget] else []
    ExecResult.ok d s (resolveEffects ++ [Effect.presentSwapChain])
  | Command.deleteResource h =>
    if slotIdx h < d.resources.length
    then ExecResult.ok { d with resources := d.resources.set (slotIdx h) Option.none } s []
    else ExecResult.err "Out of range resource access" d s []
  | Command.initRenderTarget h colorTextures depthTexture =>
    match resolveTextures d colorTextures with
    | Except.error e => ExecResult.err e d s []
    | Except.ok colors =>
      match getTextureRes d depthTexture with
      | Except.error e => ExecResult.err e d s []
      | Except.ok depthTex =>
        let rt : RenderTargetRes :=
          { colorViews := colors.filterMap id, depthStencilView := depthTex }
        match storeResource d.resources h (Resource.renderTarget rt) with
        | Except.error e => ExecResult.err e d s []
        | Except.ok rs => ExecResult.ok { d with resources := rs } s []
  | Command.setRenderTarget h =>
    let resolveEffects :=
      if s.currentRenderTarget.isSome then [Effect.resolveRenderTarget] else []
    if h ≠ 0 then
      match getRenderTargetRes d h with
      | Except.error e => ExecResult.err e d s resolveEffects
      | Except.ok Option.none => ExecResult.err "Render target not found" d s resolveEffects
      | Except.ok (Option.some rt) =>
        ExecResult.ok d { s with currentRenderTarget := Option.some rt }
          (resolveEffects ++ [Effect.omSetRenderTargets rt.colorViews rt.depthStencilView])
    else
      ExecResult.ok d { s with currentRenderTarget := Option.none }
        (resolveEffects ++
          [Effect.omSetRenderTargets [d.fb.renderTargetViewId] d.fb.depthStencilViewId])
  | Command.clearRenderTarget clearColorBuffer clearDepthBuffer clearStencilBuffer
      clearColor clearDepth clearStencil =>
    match s.currentRenderTarget with
    | Option.some rt =>
      let colorEffects :=
        if clearColorBuffer
        then rt.colorViews.map fun v => Effect.clearRenderTargetView v clearColor
        else []
      let depthStencilEffects :=
        if clearDepthBuffer ∨ clearStencilBuffer then
          match rt.depthStencilView with
          | Option.some v =>
            [Effect.clearDepthStencilView (Option.some v) clearDepthBuffer clearStencilBuffer
              clearDepth clearStencil]
          | Option.none => []
        else []
      ExecResult.ok d s (colorEffects ++ depthStencilEffects)
    | Option.none =>
      let colorEffects :=
        if clearColorBuffer
        then [Effect.clearRenderTargetView d.fb.renderTargetViewId clearColor]
        else []
      let depthStencilEffects :=
        if clearDepthBuffer then
          [Effect.clearDepthStencilView d.fb.depthStencilViewId clearDepthBuffer
            clearStencilBuffer clearDepth clearStencil]
        else []
      ExecResult.ok d s (colorEffects ++ depthStencilEffects)
  | Command.setScissorTest enabled rect =>
    let rectEffects := if enabled then [Effect.rsSetScissorRects rect] else []
    let scissorEnableIndex := if enabled then 1 else 0
    let s' := { s with scissorEnableIndex := scissorEnableIndex }
    let index := rasterizerStateIndex s.fillModeIndex scissorEnableIndex s.cullModeIndex
    ExecResult.ok d s' (rectEffects ++ [Effect.rsSetState index])
  | Command.setPipelineState blendState shader cullMode fillMode =>
    match getBlendStateRes d blendState with
    | Except.error e => ExecResult.err e d s []
    | Except.ok blend =>
      match getShaderRes d shader with
      | Except.error e => ExecResult.err e d s []
      | Except.ok sh =>
        let cullModeIndex := cullModeIdx cullMode
        let fillModeIndex := fillModeIdx fillMode
        let s' := { s with currentShader := sh
                           cullModeIndex := cullModeIndex
                           fillModeIndex := fillModeIndex }
        let index := rasterizerStateIndex fillModeIndex s.scissorEnableIndex cullModeIndex
        ExecResult.ok d s'
          [Effect.omSetBlendState blend, Effect.bindShaders sh.isSome, Effect.rsSetState index]
  | Command.initBlendState h desc =>
    match storeResource d.resources h (Resource.blendState desc) with
    | Except.error e => ExecResult.err e d s []
    | Except.ok rs => ExecResult.ok { d with resources := rs } s []
  | Command.initBuffer h size =>
    match storeResource d.resources h (Resource.buffer size) with
    | Except.error e => ExecResult.err e d s []
    | Except.ok rs => ExecResult.ok { d with resources := rs } s []
  | Command.initShader h sh =>
    match storeResource d.resources h (Resource.shader sh) with
    | Except.error e => ExecResult.err e d s []
    | Except.ok rs => ExecResult.ok { d with resources := rs } s []
  | Command.initTexture h desc =>
    match storeResource d.resources h (Resource.texture desc) with
    | Except.error e => ExecResult.err e d s []
    | Except.ok rs => ExecResult.ok { d with resources := rs } s []
  | Command.setShaderConstants fragConsts vertConsts =>
    match s.currentShader with
    | Option.none => ExecResult.err "No shader set" d s []
    | Option.some sh =>
      match packConstants "pixel" fragConsts sh.fragLocSizes with
      | Except.error e => ExecResult.err e d s []
      | Except.ok fragData =>
        let fragEffects :=
          [Effect.uploadConstantBuffer true fragData, Effect.setConstantBuffers true]
        match packConstants "vertex" vertConsts sh.vertLocSizes with
        | Except.error e => ExecResult.err e d s fragEffects
        | Except.ok vertData =>
          ExecResult.ok d s (fragEffects ++
            [Effect.uploadConstantBuffer false vertData, Effect.setConstantBuffers false])

/-- Sequential execution of a command list: stop at the first thrown exception,
accumulating the effects performed up to that point. -/
def execList (d : DevState) (s : Session) : List Command → ExecResult
  | [] => ExecResult.ok d s []
  | c :: cs =>
    match execCommand d s c with
    | ExecResult.err e d' s' effs => ExecResult.err e d' s' effs
    | ExecResult.ok d' s' effs =>
      match execList d' s' cs with
      | ExecResult.ok d2 s2 effs2 => ExecResult.ok d2 s2 (effs ++ effs2)
      | ExecResult.err e d2 s2 effs2 => ExecResult.err e d2 s2 (effs ++ effs2)

/-- Outcome of the per-buffer drain loop of process() (lines 390-896):
the buffer empties, or a present causes a return with the remaining commands
dropped, or a thrown exception propagates with the remaining commands
dropped. -/
inductive DrainResult
  | emptied (d : DevState) (s : Session) (effects : List Effect)
  | presented (d : DevState) (s : Session) (effects : List Effect) (dropped : List Command)
  | errored (e : String) (d : DevState) (s : Session) (effects : List Effect)
      (dropped : List Command)
  deriving DecidableEq

/-- The inner drain loop of process(): pop one command at a time from the
front; after executing a command, return from process() if it was a present
(line 895); an exception propagates out of process() and the rest of the
buffer is dropped. -/
def drainBuffer (d : DevState) (s : Session) : List Command → DrainResult
  | [] => DrainResult.emptied d s []
  | c :: cs =>
    match execCommand d s c with
    | ExecResult.err e d' s' effs => DrainResult.errored e d' s' effs cs
    | ExecResult.ok d' s' effs =>
      if c.isPresent
      then DrainResult.presented d' s' effs cs
      else
        match drainBuffer d' s' cs with
        | DrainResult.emptied d2 s2 effs2 => DrainResult.emptied d2 s2 (effs ++ effs2)
        | DrainResult.presented d2 s2 effs2 dropped =>
          DrainResult.presented d2 s2 (effs ++ effs2) dropped
        | DrainResult.errored e d2 s2 effs2 dropped =>
          DrainResult.errored e d2 s2 (effs ++ effs2) dropped

/-- Outcome of one call to RenderDevice::process over a queue of command
buffers: it returns after executing a present, raises a command exception, or
blocks waiting on the queue when the queue runs out without a present. -/
inductive ProcessResult
  | returned (d : DevState) (effects : List Effect) (remaining : List (List Command))
  | raised (e : String) (d : DevState) (effects : List Effect)
      (remaining : List (List Command))
  | blockedOnQueue (d : DevState) (effects : List Effect)
  deriving DecidableEq

/-- One call to process() (lines 382-897): pop command buffers in FIFO order,
draining each one; the session locals persist across buffers within the call
and the call ends at the first executed present or at a thrown exception. -/
def processBuffers (d : DevState) (s : Session) : List (List Command) → ProcessResult
  | [] => ProcessResult.blockedOnQueue d []
  | b :: rest =>
    match drainBuffer d s b with
    | DrainResult.presented d' _ effs _ => ProcessResult.returned d' effs rest
    | DrainResult.errored e d' _ effs _ => ProcessResult.raised e d' effs rest
    | DrainResult.emptied d' s' effs =>
      match processBuffers d' s' rest with
      | ProcessResult.returned d2 effs2 rem => ProcessResult.returned d2 (effs ++ effs2) rem
      | ProcessResult.raised e d2 effs2 rem => ProcessResult.raised e d2 (effs ++ effs2) rem
      | ProcessResult.blockedOnQueue d2 effs2 =>
        ProcessResult.blockedOnQueue d2 (effs ++ effs2)

/-- RenderDevice::renderMain (lines 1150-1165) with `running` true throughout,
run over a fixed queue until the thread would block waiting for more buffers:
each process() call ends at a present or at an exception; an exception is
caught at the loop boundary and logged, and the loop calls process() again,
which starts from a fresh session and pops the next queued buffer.  Returns
the final device state, the full backend effect trace, and the log. -/
def renderLoopAux (d : DevState) (s : Session) :
    List (List Command) → DevState × List Effect × List String
  | [] => (d, [], [])
  | b :: rest =>
    match drainBuffer d s b with
    | DrainResult.emptied d' s' effs =>
      let r := renderLoopAux d' s' rest
      (r.1, effs ++ r.2.1, r.2.2)
    | DrainResult.presented d' _ effs _ =>
      let r := renderLoopAux d' initSession rest
      (r.1, effs ++ r.2.1, r.2.2)
    | DrainResult.errored e d' _ effs _ =>
      let r := renderLoopAux d' initSession rest
      (r.1, effs ++ r.2.1, e :: r.2.2)

/-- The render thread's main loop started from a fresh process() call. -/
def renderLoop (d : DevState) (q : List (List Command)) :
    DevState × List Effect × List String :=
  renderLoopAux d initSession q

/-- The teardown path of ~RenderDevice (lines 107-115): `running` has been set
to false and the terminal buffer (a single present) pushed; the render thread,
parked at the queue wait inside process(), completes exactly one process()
call — which returns at the first executed present — and then exits the while
loop of renderMain without popping further buffers.  The `remaining` field of
the result is the list of command buffers never executed. -/
def shutdownRun (d : DevState) (q : List (List Command)) : ProcessResult :=
  processBuffers d initSession q

/-- The index of the last rasterizer state bound by RSSetState in an effect
trace. -/
def lastRasterBound (effs : List Effect) : Option Nat :=
  (effs.filterMap fun e =>
    match e with
    | Effect.rsSetState i => Option.some i
    | _ => Option.none).getLast?

/-- A concrete frame buffer as produced by init: ids 0-3 allocated, counter at
4, 640 x 480. -/
def fb0 : FrameBuffer :=
  { backBufferId := 0
    renderTargetViewId := 1
    depthStencilTextureId := Option.some 2
    depthStencilViewId := Option.some 3
    frameBufferWidth := 640
    frameBufferHeight := 480
    nextId := 4 }

/-- A concrete device with an empty resource table and depth enabled. -/
def dev0 : DevState := { resources := [], depth := true, fb := fb0 }

/-- A concrete device holding one buffer resource in slot 0 (handle 1). -/
def dev1 : DevState :=
  { resources := [Option.some (Resource.buffer 12)], depth := true, fb := fb0 }

/-- A concrete shader declaring one 4-byte fragment constant slot and one
4-byte vertex constant slot. -/
def shaderA : ShaderRes := { fragLocSizes := [4], vertLocSizes := [4] }

/-- A session with shaderA bound (as after a setPipelineState that resolved
it). -/
def sessionShaderA : Session := { initSession with currentShader := Option.some shaderA }

/-- A concrete render target with one color view (id 40) and a depth/stencil
view (id 50). -/
def rtA : RenderTargetRes := { colorViews := [40], depthStencilView := Option.some 50 }

/-- A session with rtA bound as the render target override. -/
def sessionRtA : Session := { initSession with currentRenderTarget := Option.some rtA }

/-- The backend effects of executing a present command (present case, lines
404-411): resolve the current render target override if one is bound, then
present the swap chain. -/
def presentEffects (s : Session) : List Effect :=
  (if s.currentRenderTarget.isSome then [Effect.resolveRenderTarget] else []) ++
    [Effect.presentSwapChain]

/-- Slot handle-1 of the resource table holds a resource. -/
def slotPopulated (resources : List (Option Resource)) (h : Nat) : Prop :=
  ((resources[h - 1]?).getD Option.none).isSome = true

/-- The handle carried by a table-writing command fits in the unsigned handle
type (always true of commands produced by the engine). -/
def cmdHandleBounded : Command → Prop
  | Command.deleteResource h => h < sizetWidth
  | Command.initRenderTarget h _ _ => h < sizetWidth
  | Command.initBlendState h _ => h < sizetWidth
  | Command.initBuffer h _ => h < sizetWidth
  | Command.initShader h _ => h < sizetWidth
  | Command.initTexture h _ => h < sizetWidth
  | _ => True

/-- The rasterizer-state index formula exactly as the claim states it, with
N_scissor = 2 the number of scissor modes and N_cull = 3 the number of cull
modes, written down for comparison with the source's index computation. -/
def claimedRasterizerStateIndex (fillModeIndex scissorEnableIndex cullModeIndex : Nat) : Nat :=
  fillModeIndex * 2 + scissorEnableIndex * 3 + cullModeIndex

/-- Whether a command execution completed without throwing. -/
def ExecResult.isOk : ExecResult → Bool
  | ExecResult.ok _ _ _ => true
  | _ => false

/-- Numeric value of the size_t width. -/
lemma sizetWidth_eq : sizetWidth = 18446744073709551616 := by
  norm_num [sizetWidth]

/-- For positive in-range handles the wrapped slot index is handle - 1. -/
lemma slotIdx_of_pos (h : Nat) (h1 : 1 ≤ h) (h2 : h < sizetWidth) : slotIdx h = h - 1 := by
  have h2' : h < 18446744073709551616 := by rw [sizetWidth_eq] at h2; exact h2
  have hsplit : h + (sizetWidth - 1) = (h - 1) + sizetWidth := by
    rw [sizetWidth_eq]; omega
  rw [slotIdx, hsplit, Nat.add_mod_right, sizetWidth_eq]
  exact Nat.mod_eq_of_lt (by omega)

/-- Nat 0 wraps to the largest size_t value. -/
lemma slotIdx_zero : slotIdx 0 = sizetWidth - 1 := by
  rw [slotIdx, Nat.zero_add, sizetWidth_eq]

/-- Distinct in-range handles never alias the slot of a positive handle. -/
lemma slotIdx_ne (h' h : Nat) (hb : h' < sizetWidth) (h1 : 1 ≤ h) (h2 : h < sizetWidth)
    (hne : h' ≠ h) : slotIdx h' ≠ h - 1 := by
  rcases Nat.eq_zero_or_pos h' with hz | hp
  · subst hz
    rw [slotIdx_zero, sizetWidth_eq]
    rw [sizetWidth_eq] at h2
    omega
  · rw [slotIdx_of_pos h' hp hb]
    omega

/-- Executing a present command leaves device and session unchanged and emits
exactly the present effects. -/
lemma exec_present (d : DevState) (s : Session) :
    execCommand d s Command.present = ExecResult.ok d s (presentEffects s) := rfl

/-- Splitting a successful run of an appended command list. -/
lemma execList_append_ok (xs : List Command) :
    ∀ {d s d' s' effs} (ys : List Command),
      execList d s (xs ++ ys) = ExecResult.ok d' s' effs →
      ∃ d1 s1 e1 e2, execList d s xs = ExecResult.ok d1 s1 e1 ∧
        execList d1 s1 ys = ExecResult.ok d' s' e2 ∧ effs = e1 ++ e2 := by
  induction xs with
  | nil =>
    intro d s d' s' effs ys hex
    exact ⟨d, s, [], effs, rfl, hex, rfl⟩
  | cons c cs ih =>
    intro d s d' s' effs ys hex
    rw [List.cons_append] at hex
    cases hec : execCommand d s c with
    | err e dd ss ee => simp [execList, hec] at hex
    | ok d1 s1 e1 =>
      simp only [execList, hec] at hex
      cases hrest : execList d1 s1 (cs ++ ys) with
      | err e2 d2 s2 ee2 => simp [hrest] at hex
      | ok d2 s2 e2 =>
        simp only [hrest, ExecResult.ok.injEq] at hex
        obtain ⟨rfl, rfl, rfl⟩ := hex
        obtain ⟨da, sa, ea, eb, hxs, hys, rfl⟩ := ih ys hrest
        refine ⟨da, sa, e1 ++ ea, eb, ?_, hys, by simp⟩
        simp only [execList, hec, hxs]

/-- Composing successful runs of two command lists. -/
lemma execList_append_of (xs : List Command) :
    ∀ {d s d1 s1 e1 d' s' e2} (ys : List Command),
      execList d s xs = ExecResult.ok d1 s1 e1 →
      execList d1 s1 ys = ExecResult.ok d' s' e2 →
      execList d s (xs ++ ys) = ExecResult.ok d' s' (e1 ++ e2) := by
  induction xs with
  | nil =>
    intro d s d1 s1 e1 d' s' e2 ys hxs hys
    obtain ⟨rfl, rfl, rfl⟩ : d = d1 ∧ s = s1 ∧ [] = e1 := by simpa [execList] using hxs
    simpa using hys
  | cons c cs ih =>
    intro d s d1 s1 e1 d' s' e2 ys hxs hys
    cases hec : execCommand d s c with
    | err e dd ss ee => simp [execList, hec] at hxs
    | ok da sa ea =>
      simp only [execList, hec] at hxs
      cases hrest : execList da sa cs with
      | err e3 d3 s3 ee3 => simp [hrest] at hxs
      | ok d3 s3 e3 =>
        simp only [hrest, ExecResult.ok.injEq] at hxs
        obtain ⟨rfl, rfl, rfl⟩ := hxs
        have := ih ys hrest hys
        rw [List.cons_append]
        simp only [execList, hec, this]
        simp

/-- The last bound rasterizer index of a trace is decided by the tail when the
tail binds one. -/
lemma lastRasterBound_append (xs ys : List Effect) (i : Nat)
    (h : lastRasterBound ys = Option.some i) :
    lastRasterBound (xs ++ ys) = Option.some i := by
  rw [lastRasterBound, List.filterMap_append]
  rw [lastRasterBound] at h
  rw [List.getLast?_append_of_ne_nil]
  · exact h
  · intro hnil
    rw [hnil] at h
    simp at h

/-- A present-free command list that executes without error drains to an
emptied buffer with the same final state and effect trace. -/
lemma drain_emptied_of_execList (cmds : List Command) :
    ∀ {d s d' s' effs},
      (∀ c ∈ cmds, c.isPresent = false) →
      execList d s cmds = ExecResult.ok d' s' effs →
      drainBuffer d s cmds = DrainResult.emptied d' s' effs := by
  induction cmds with
  | nil =>
    intro d s d' s' effs _ hex
    obtain ⟨rfl, rfl, rfl⟩ : d = d' ∧ s = s' ∧ [] = effs := by simpa [execList] using hex
    rfl
  | cons c cs ih =>
    intro d s d' s' effs hnp hex
    have hc : c.isPresent = false := hnp c (by simp)
    cases hec : execCommand d s c with
    | err e dd ss ee => simp [execList, hec] at hex
    | ok d1 s1 e1 =>
      simp only [execList, hec] at hex
      cases hrest : execList d1 s1 cs with
      | err e2 d2 s2 ee2 => simp [hrest] at hex
      | ok d2 s2 e2 =>
        simp only [hrest, ExecResult.ok.injEq] at hex
        obtain ⟨rfl, rfl, rfl⟩ := hex
        have hdrain := ih (fun x hx => hnp x (by simp [hx])) hrest
        simp only [drainBuffer, hec, hc, hdrain]
        simp

/-- Executing a present-free prefix and then a present: the drain loop returns
at the present, dropping exactly the commands after it. -/
lemma drain_present_after (preCmds : List Command) :
    ∀ {d s d' s' effs} (postCmds : List Command),
      (∀ c ∈ preCmds, c.isPresent = false) →
      execList d s preCmds = ExecResult.ok d' s' effs →
      drainBuffer d s (preCmds ++ Command.present :: postCmds) =
        DrainResult.presented d' s' (effs ++ presentEffects s') postCmds := by
  induction preCmds with
  | nil =>
    intro d s d' s' effs post _ hex
    obtain ⟨rfl, rfl, rfl⟩ : d = d' ∧ s = s' ∧ [] = effs := by simpa [execList] using hex
    simp only [List.nil_append, drainBuffer, exec_present]
    rfl
  | cons c cs ih =>
    intro d s d' s' effs post hnp hex
    have hc : c.isPresent = false := hnp c (by simp)
    cases hec : execCommand d s c with
    | err e dd ss ee => simp [execList, hec] at hex
    | ok d1 s1 e1 =>
      simp only [execList, hec] at hex
      cases hrest : execList d1 s1 cs with
      | err e2 d2 s2 ee2 => simp [hrest] at hex
      | ok d2 s2 e2 =>
        simp only [hrest, ExecResult.ok.injEq] at hex
        obtain ⟨rfl, rfl, rfl⟩ := hex
        have hdrain := ih post (fun x hx => hnp x (by simp [hx])) hrest
        rw [List.cons_append]
        simp only [drainBuffer, hec, hc, hdrain]
        simp

/-- During one process() call, a chain of present-free successfully executing
buffers is drained completely, in order, before the following buffers are
touched; the call then returns at the first buffer whose drain executes a
present, dropping every queued buffer after it. -/
lemma processBuffers_chain (bufs : List (List Command)) :
    ∀ {d s0 d' s' effs} (b : List Command) (rest : List (List Command))
      {d2 s2 effs2 dropped},
      (∀ bb ∈ bufs, ∀ c ∈ bb, c.isPresent = false) →
      execList d s0 bufs.flatten = ExecResult.ok d' s' effs →
      drainBuffer d' s' b = DrainResult.presented d2 s2 effs2 dropped →
      processBuffers d s0 (bufs ++ b :: rest) = ProcessResult.returned d2 (effs ++ effs2) rest := by
  induction bufs with
  | nil =>
    intro d s0 d' s' effs b rest d2 s2 effs2 dropped _ hex hpres
    obtain ⟨rfl, rfl, rfl⟩ : d = d' ∧ s0 = s' ∧ [] = effs := by simpa [execList] using hex
    simp only [List.nil_append, processBuffers, hpres]
  | cons bb bufs ih =>
    intro d s0 d' s' effs b rest d2 s2 effs2 dropped hnp hex hpres
    rw [show (bb :: bufs).flatten = bb ++ bufs.flatten by simp] at hex
    obtain ⟨d1, s1, e1, e2, hbb, hrest, rfl⟩ := execList_append_ok bb bufs.flatten hex
    have hdrain : drainBuffer d s0 bb = DrainResult.emptied d1 s1 e1 :=
      drain_emptied_of_execList bb (hnp bb (by simp)) hbb
    have hcont := ih b rest (fun x hx c hc => hnp x (by simp [hx]) c hc) hrest hpres
    rw [List.cons_append]
    simp only [processBuffers, hdrain, hcont]
    simp

/-- C1: in the per-buffer drain loop, executing a present causes an immediate
return to waiting on the command queue — for any present-free successfully
executing prefix, draining prefix ++ present :: post returns at the present
with exactly the commands after the present dropped, never executed; and a
buffer containing only a single present drains to completion (nothing
dropped) and returns control exactly once. -/
theorem c1_present_frame_boundary :
    (∀ (d : DevState) (s : Session) (preCmds postCmds : List Command)
       (d' : DevState) (s' : Session) (effs : List Effect),
       (∀ c ∈ preCmds, c.isPresent = false) →
       execList d s preCmds = ExecResult.ok d' s' effs →
       drainBuffer d s (preCmds ++ Command.present :: postCmds) =
         DrainResult.presented d' s' (effs ++ presentEffects s') postCmds) ∧
    (∀ (d : DevState) (s : Session),
       drainBuffer d s [Command.present] =
         DrainResult.presented d s (presentEffects s) []) := by
  constructor
  · intro d s preCmds postCmds d' s' effs hnp hex
    exact drain_present_after preCmds postCmds hnp hex
  · intro d s
    have h := drain_present_after (d := d) (s := s) [] [] (by simp) rfl
    simpa using h

/-- C1 witness: a concrete buffer with one command before the present and one
after it drains to exactly the prefix effects plus the present effects, with
the trailing command dropped. -/
theorem c1_witness :
    drainBuffer dev0 initSession
        ([Command.setScissorTest true 9] ++ Command.present :: [Command.initBuffer 1 4]) =
      DrainResult.presented dev0 { initSession with scissorEnableIndex := 1 }
        ([Effect.rsSetScissorRects 9, Effect.rsSetState 3] ++
          presentEffects { initSession with scissorEnableIndex := 1 })
        [Command.initBuffer 1 4] :=
  c1_present_frame_boundary.1 dev0 initSession [Command.setScissorTest true 9]
    [Command.initBuffer 1 4] dev0 { initSession with scissorEnableIndex := 1 }
    [Effect.rsSetScissorRects 9, Effect.rsSetState 3] (by decide) (by decide)

/-- C2 counterexample: at shutdown (running already false, terminal buffer
pushed), with two present-containing buffers queued ahead of the terminal one,
the final process() call returns after the first buffer's present and the
thread exits; the second buffer — which was in the queue before the terminal
buffer — is never executed (only one present reaches the backend and both
remaining buffers are left in the queue). -/
theorem c2_counterexample :
    shutdownRun dev0 [[Command.present], [Command.present], [Command.present]] =
      ProcessResult.returned dev0 [Effect.presentSwapChain]
        [[Command.present], [Command.present]] := by decide

/-- C2 amended: during the shutdown's final process() call the render thread
drains, completely and in order, every queued buffer that precedes the first
buffer whose drain executes a present, then executes that buffer up to its
present and exits, dropping every buffer queued after it (possibly including
buffers pushed before the terminal one). -/
theorem c2_shutdown_drains_until_first_present :
    ∀ (d : DevState) (bufs : List (List Command)) (b : List Command)
      (rest : List (List Command)) (d' : DevState) (s' : Session) (effs : List Effect)
      (d2 : DevState) (s2 : Session) (effs2 : List Effect) (dropped : List Command),
      (∀ bb ∈ bufs, ∀ c ∈ bb, c.isPresent = false) →
      execList d initSession bufs.flatten = ExecResult.ok d' s' effs →
      drainBuffer d' s' b = DrainResult.presented d2 s2 effs2 dropped →
      shutdownRun d (bufs ++ b :: rest) = ProcessResult.returned d2 (effs ++ effs2) rest := by
  intro d bufs b rest d' s' effs d2 s2 effs2 dropped hnp hex hpres
  exact processBuffers_chain bufs b rest hnp hex hpres

/-- C2 witness: a present-free buffer ahead of the first present-containing
buffer is fully executed during shutdown, and the buffer queued after that
present is dropped. -/
theorem c2_witness :
    shutdownRun dev0 [[Command.initBuffer 1 4], [Command.present], [Command.present]] =
      ProcessResult.returned { dev0 with resources := [Option.some (Resource.buffer 4)] }
        [Effect.presentSwapChain] [[Command.present]] := by
  have h := c2_shutdown_drains_until_first_present dev0 [[Command.initBuffer 1 4]]
    [Command.present] [[Command.present]]
    { dev0 with resources := [Option.some (Resource.buffer 4)] } initSession []
    { dev0 with resources := [Option.some (Resource.buffer 4)] } initSession
    [Effect.presentSwapChain] [] (by decide) (by decide) (by decide)
  simpa using h

/-- C3 (code bug): a clearRenderTarget with only clearStencilBuffer set clears
nothing in the default-backbuffer branch — the depth/stencil clear there is
gated on clearDepthBuffer alone (line 489), even though a depth/stencil view
exists — while the render-target-override branch (line 477) does clear the
stencil attachment for the same command. -/
theorem c3_backbuffer_stencil_clear_skipped :
    execCommand dev0 initSession (Command.clearRenderTarget false false true 7 1 0) =
      ExecResult.ok dev0 initSession [] ∧
    execCommand dev0 sessionRtA (Command.clearRenderTarget false false true 7 1 0) =
      ExecResult.ok dev0 sessionRtA
        [Effect.clearDepthStencilView (Option.some 50) false true 1 0] := by
  decide

/-- C4 counterexample: the claim's index formula fillModeIndex * N_scissor +
scissorEnableIndex * N_cull + cullModeIndex (N_scissor = 2, N_cull = 3) does
not match the code.  Executing setPipelineState with wireframe fill binds
rasterizer state index 6 (= fill * 6 + scissor * 3 + cull), the table entry
with exactly those axes, while the claim's formula yields 2, whose table entry
is a solid-fill cull-back state. -/
theorem c4_counterexample :
    execCommand dev0 initSession
        (Command.setPipelineState 0 0 CullMode.none FillMode.wireframe) =
      ExecResult.ok dev0 { initSession with fillModeIndex := 1 }
        [Effect.omSetBlendState Option.none, Effect.bindShaders false,
          Effect.rsSetState 6] ∧
    rasterizerStateIndex 1 0 0 = 6 ∧
    claimedRasterizerStateIndex 1 0 0 = 2 ∧
    rasterizerStates[6]? =
      Option.some { fillMode := 1, scissorEnable := 0, cullMode := 0 } ∧
    rasterizerStates[2]? =
      Option.some { fillMode := 0, scissorEnable := 0, cullMode := 2 } := by
  decide

/-- C4 amended: whenever setPipelineState or setScissorTest changes an axis,
the bound rasterizer state is selected by recomputing the index
fillModeIndex * (N_scissor * N_cull) + scissorEnableIndex * N_cull +
cullModeIndex = fill * 6 + scissor * 3 + cull from the current values of all
three axes — never incrementally patched — and that index selects the
precomputed state whose axes are exactly the current ones. -/
theorem c4_rasterizer_index_recomputed :
    (∀ f sc cu : Nat, f < 2 → sc < 2 → cu < 3 →
       rasterizerStates[rasterizerStateIndex f sc cu]? =
         Option.some { fillMode := f, scissorEnable := sc, cullMode := cu }) ∧
    (∀ (d : DevState) (s : Session) (en : Bool) (rect : Nat),
       execCommand d s (Command.setScissorTest en rect) =
         ExecResult.ok d { s with scissorEnableIndex := if en then 1 else 0 }
           ((if en then [Effect.rsSetScissorRects rect] else []) ++
             [Effect.rsSetState (rasterizerStateIndex s.fillModeIndex
               (if en then 1 else 0) s.cullModeIndex)])) ∧
    (∀ (d : DevState) (s : Session) (bs sh : Nat) (cm : CullMode) (fm : FillMode)
       (d' : DevState) (s' : Session) (effs : List Effect),
       execCommand d s (Command.setPipelineState bs sh cm fm) =
         ExecResult.ok d' s' effs →
       d' = d ∧ s'.fillModeIndex = fillModeIdx fm ∧ s'.cullModeIndex = cullModeIdx cm ∧
       s'.scissorEnableIndex = s.scissorEnableIndex ∧
       lastRasterBound effs =
         Option.some (rasterizerStateIndex (fillModeIdx fm) s.scissorEnableIndex
           (cullModeIdx cm))) := by
  refine ⟨?_, ?_, ?_⟩
  · intro f sc cu hf hsc hcu
    interval_cases f <;> interval_cases sc <;> interval_cases cu <;> decide
  · intro d s en rect
    rfl
  · intro d s bs sh cm fm d' s' effs hex
    cases hb : getBlendStateRes d bs with
    | error e => simp [execCommand, hb] at hex
    | ok blend =>
      cases hs : getShaderRes d sh with
      | error e => simp [execCommand, hb, hs] at hex
      | ok shr =>
        simp only [execCommand, hb, hs, ExecResult.ok.injEq] at hex
        obtain ⟨rfl, rfl, rfl⟩ := hex
        refine ⟨rfl, rfl, rfl, rfl, ?_⟩
        simp [lastRasterBound]

/-- C4 witness: the table-lookup conjunct at axes (1, 1, 2) and the
setPipelineState conjunct at a concrete device, shader 0 and blend 0. -/
theorem c4_witness :
    rasterizerStates[rasterizerStateIndex 1 1 2]? =
      Option.some { fillMode := 1, scissorEnable := 1, cullMode := 2 } ∧
    lastRasterBound [Effect.omSetBlendState Option.none, Effect.bindShaders false,
        Effect.rsSetState 8] =
      Option.some (rasterizerStateIndex (fillModeIdx FillMode.wireframe) 0
        (cullModeIdx CullMode.back)) :=
  ⟨c4_rasterizer_index_recomputed.1 1 1 2 (by decide) (by decide) (by decide),
   (c4_rasterizer_index_recomputed.2.2 dev0 initSession 0 0 CullMode.back
      FillMode.wireframe dev0
      { initSession with cullModeIndex := 2, fillModeIndex := 1 }
      [Effect.omSetBlendState Option.none, Effect.bindShaders false,
        Effect.rsSetState 8] (by decide)).2.2.2.2⟩

/-- C5: for any command sequence ending in setPipelineState followed by
setScissorTest, swapping the two final commands yields a run with the same
final device state and session, the same last bound rasterizer index — which
is the index recomputed from the union of the most recent fill mode, scissor
flag and cull mode — and hence the same precomputed rasterizer state object. -/
theorem c5_pipeline_scissor_commute :
    ∀ (dInit : DevState) (sInit : Session) (cmds : List Command) (bs sh : Nat)
      (cm : CullMode) (fm : FillMode) (en : Bool) (rect : Nat)
      (d1 : DevState) (s1 : Session) (effs1 : List Effect),
      execList dInit sInit (cmds ++ [Command.setPipelineState bs sh cm fm,
        Command.setScissorTest en rect]) = ExecResult.ok d1 s1 effs1 →
      (∃ effs2,
        execList dInit sInit (cmds ++ [Command.setScissorTest en rect,
          Command.setPipelineState bs sh cm fm]) = ExecResult.ok d1 s1 effs2 ∧
        lastRasterBound effs2 = lastRasterBound effs1) ∧
      lastRasterBound effs1 =
        Option.some (rasterizerStateIndex (fillModeIdx fm) (if en then 1 else 0)
          (cullModeIdx cm)) ∧
      rasterizerStates[rasterizerStateIndex (fillModeIdx fm) (if en then 1 else 0)
        (cullModeIdx cm)]? =
        Option.some { fillMode := fillModeIdx fm,
                      scissorEnable := if en then 1 else 0,
                      cullMode := cullModeIdx cm } := by
  intro dInit sInit cmds bs sh cm fm en rect d1 s1 effs1 hex
  obtain ⟨d, s, epre, esuf, hpre, hsuf, rfl⟩ := execList_append_ok cmds _ hex
  cases hb : getBlendStateRes d bs with
  | error e => simp [execList, execCommand, hb] at hsuf
  | ok blend =>
    cases hs : getShaderRes d sh with
    | error e => simp [execList, execCommand, hb, hs] at hsuf
    | ok shr =>
      have hrun1 : execList d s [Command.setPipelineState bs sh cm fm,
          Command.setScissorTest en rect] =
          ExecResult.ok d
            { s with currentShader := shr
                     cullModeIndex := cullModeIdx cm
                     fillModeIndex := fillModeIdx fm
                     scissorEnableIndex := if en then 1 else 0 }
            ([Effect.omSetBlendState blend, Effect.bindShaders shr.isSome,
              Effect.rsSetState (rasterizerStateIndex (fillModeIdx fm)
                s.scissorEnableIndex (cullModeIdx cm))] ++
              ((if en then [Effect.rsSetScissorRects rect] else []) ++
                [Effect.rsSetState (rasterizerStateIndex (fillModeIdx fm)
                  (if en then 1 else 0) (cullModeIdx cm))])) := by
        simp only [execList, execCommand, hb, hs]
        cases en <;> simp
      rw [hrun1] at hsuf
      obtain ⟨rfl, rfl, rfl⟩ :
          d = d1 ∧
          { s with currentShader := shr
                   cullModeIndex := cullModeIdx cm
                   fillModeIndex := fillModeIdx fm
                   scissorEnableIndex := if en then 1 else 0 } = s1 ∧
          ([Effect.omSetBlendState blend, Effect.bindShaders shr.isSome,
            Effect.rsSetState (rasterizerStateIndex (fillModeIdx fm)
              s.scissorEnableIndex (cullModeIdx cm))] ++
            ((if en then [Effect.rsSetScissorRects rect] else []) ++
              [Effect.rsSetState (rasterizerStateIndex (fillModeIdx fm)
                (if en then 1 else 0) (cullModeIdx cm))])) = esuf := by
        simpa using hsuf
      have hTail1 : lastRasterBound
          ([Effect.omSetBlendState blend, Effect.bindShaders shr.isSome,
            Effect.rsSetState (rasterizerStateIndex (fillModeIdx fm)
              s.scissorEnableIndex (cullModeIdx cm))] ++
            ((if en then [Effect.rsSetScissorRects rect] else []) ++
              [Effect.rsSetState (rasterizerStateIndex (fillModeIdx fm)
                (if en then 1 else 0) (cullModeIdx cm))])) =
          Option.some (rasterizerStateIndex (fillModeIdx fm) (if en then 1 else 0)
            (cullModeIdx cm)) := by
        cases en <;> simp [lastRasterBound]
      refine ⟨?_, lastRasterBound_append _ _ _ hTail1, ?_⟩
      · have hrun2 : execList d s [Command.setScissorTest en rect,
            Command.setPipelineState bs sh cm fm] =
            ExecResult.ok d
              { s with currentShader := shr
                       cullModeIndex := cullModeIdx cm
                       fillModeIndex := fillModeIdx fm
                       scissorEnableIndex := if en then 1 else 0 }
              (((if en then [Effect.rsSetScissorRects rect] else []) ++
                [Effect.rsSetState (rasterizerStateIndex s.fillModeIndex
                  (if en then 1 else 0) s.cullModeIndex)]) ++
                [Effect.omSetBlendState blend, Effect.bindShaders shr.isSome,
                  Effect.rsSetState (rasterizerStateIndex (fillModeIdx fm)
                    (if en then 1 else 0) (cullModeIdx cm))]) := by
          simp only [execList, execCommand, hb, hs]
          cases en <;> simp
        have hTail2 : lastRasterBound
            (((if en then [Effect.rsSetScissorRects rect] else []) ++
              [Effect.rsSetState (rasterizerStateIndex s.fillModeIndex
                (if en then 1 else 0) s.cullModeIndex)]) ++
              [Effect.omSetBlendState blend, Effect.bindShaders shr.isSome,
                Effect.rsSetState (rasterizerStateIndex (fillModeIdx fm)
                  (if en then 1 else 0) (cullModeIdx cm))]) =
            Option.some (rasterizerStateIndex (fillModeIdx fm) (if en then 1 else 0)
              (cullModeIdx cm)) := by
          cases en <;> simp [lastRasterBound]
        exact ⟨_, execList_append_of cmds _ hpre hrun2,
          (lastRasterBound_append _ _ _ hTail2).trans
            (lastRasterBound_append _ _ _ hTail1).symm⟩
      · cases fm <;> cases cm <;> cases en <;> decide

/-- C5 witness: the commutation theorem applied to a concrete run (solid
prefix empty, wireframe fill, cull back, scissor enabled). -/
theorem c5_witness :
    lastRasterBound [Effect.omSetBlendState Option.none, Effect.bindShaders false,
        Effect.rsSetState 8, Effect.rsSetScissorRects 5, Effect.rsSetState 11] =
      Option.some (rasterizerStateIndex (fillModeIdx FillMode.wireframe)
        (if true then 1 else 0) (cullModeIdx CullMode.back)) ∧
    rasterizerStates[rasterizerStateIndex (fillModeIdx FillMode.wireframe)
      (if true then 1 else 0) (cullModeIdx CullMode.back)]? =
      Option.some { fillMode := fillModeIdx FillMode.wireframe,
                    scissorEnable := if true then 1 else 0,
                    cullMode := cullModeIdx CullMode.back } :=
  (c5_pipeline_scissor_commute dev0 initSession [] 0 0 CullMode.back FillMode.wireframe
    true 5 dev0
    { initSession with cullModeIndex := 2
                       fillModeIndex := 1
                       scissorEnableIndex := 1 }
    [Effect.omSetBlendState Option.none, Effect.bindShaders false,
      Effect.rsSetState 8, Effect.rsSetScissorRects 5, Effect.rsSetState 11]
    (by decide)).2

/-- A size mismatch at any checked position makes the gathering loop throw the
invalid-size error for that stage. -/
lemma gatherConstants_error (stage : String) (consts : List (List Nat)) :
    ∀ (locSizes : List Nat) (i : Nat) (ci : List Nat) (li : Nat),
      consts[i]? = Option.some ci → locSizes[i]? = Option.some li →
      4 * ci.length ≠ li →
      gatherConstants stage consts locSizes =
        Except.error ("Invalid " ++ stage ++ " shader constant size") := by
  induction consts with
  | nil =>
    intro locs i ci li hci _ _
    simp at hci
  | cons c cs ih =>
    intro locs i ci li hci hli hne
    cases locs with
    | nil => rfl
    | cons l ls =>
      by_cases hcl : 4 * c.length ≠ l
      · simp [gatherConstants, hcl]
      · push_neg at hcl
        cases i with
        | zero =>
          simp only [List.getElem?_cons_zero, Option.some.injEq] at hci hli
          subst hci
          subst hli
          exact absurd hcl hne
        | succ j =>
          simp only [List.getElem?_cons_succ] at hci hli
          have hrec := ih ls j ci li hci hli hne
          simp [gatherConstants, hcl, hrec]

/-- A size mismatch at any checked position makes packConstants fail with the
invalid-size error for that stage, whatever the other entries are. -/
lemma packConstants_error (stage : String) (consts : List (List Nat))
    (locSizes : List Nat) (i : Nat) (ci : List Nat) (li : Nat)
    (hci : consts[i]? = Option.some ci) (hli : locSizes[i]? = Option.some li)
    (hne : 4 * ci.length ≠ li) :
    packConstants stage consts locSizes =
      Except.error ("Invalid " ++ stage ++ " shader constant size") := by
  rw [packConstants]
  by_cases hlen : consts.length > locSizes.length
  · simp [hlen]
  · simp [hlen, gatherConstants_error stage consts locSizes i ci li hci hli hne]

/-- C6 amended: setShaderConstants fails with "No shader set" when no shader is
bound; any reached constant whose byte size differs from the shader's declared
per-slot size produces an "Invalid ... shader constant size" error; a mismatch
in the fragment-stage constants prevents every upload, while a mismatch in the
vertex-stage constants is detected only after the fragment constant buffer has
already been uploaded, so exactly the fragment upload occurs. -/
theorem c6_shader_constant_validation :
    (∀ (d : DevState) (s : Session) (fc vc : List (List Nat)),
       s.currentShader = Option.none →
       execCommand d s (Command.setShaderConstants fc vc) =
         ExecResult.err "No shader set" d s []) ∧
    (∀ (stage : String) (consts : List (List Nat)) (locSizes : List Nat) (i : Nat)
       (ci : List Nat) (li : Nat),
       consts[i]? = Option.some ci → locSizes[i]? = Option.some li →
       4 * ci.length ≠ li →
       packConstants stage consts locSizes =
         Except.error ("Invalid " ++ stage ++ " shader constant size")) ∧
    (∀ (d : DevState) (s : Session) (shd : ShaderRes) (fc vc : List (List Nat))
       (e : String),
       s.currentShader = Option.some shd →
       packConstants "pixel" fc shd.fragLocSizes = Except.error e →
       execCommand d s (Command.setShaderConstants fc vc) = ExecResult.err e d s []) ∧
    (∀ (d : DevState) (s : Session) (shd : ShaderRes) (fc vc : List (List Nat))
       (fragData : List Nat) (e : String),
       s.currentShader = Option.some shd →
       packConstants "pixel" fc shd.fragLocSizes = Except.ok fragData →
       packConstants "vertex" vc shd.vertLocSizes = Except.error e →
       execCommand d s (Command.setShaderConstants fc vc) =
         ExecResult.err e d s
           [Effect.uploadConstantBuffer true fragData, Effect.setConstantBuffers true]) := by
  refine ⟨?_, packConstants_error, ?_, ?_⟩
  · intro d s fc vc hnone
    simp [execCommand, hnone]
  · intro d s shd fc vc e hsome hfrag
    simp [execCommand, hsome, hfrag]
  · intro d s shd fc vc fragData e hsome hfrag hvert
    simp [execCommand, hsome, hfrag, hvert]

/-- C6 counterexample: with a shader bound that declares one 4-byte constant
per stage, a command whose fragment constant is valid but whose vertex constant
has the wrong byte size raises the invalid-size error only after the fragment
constant buffer upload has been issued — an upload does occur for the
erroring command, contradicting the claim that no backend upload call is made
when a size mismatch occurs. -/
theorem c6_counterexample :
    execCommand dev0 sessionShaderA (Command.setShaderConstants [[7]] [[7, 8]]) =
      ExecResult.err "Invalid vertex shader constant size" dev0 sessionShaderA
        [Effect.uploadConstantBuffer true [7], Effect.setConstantBuffers true] ∧
    (Effect.uploadConstantBuffer true [7]) ∈
      [Effect.uploadConstantBuffer true [7], Effect.setConstantBuffers true] := by
  decide

/-- C6 witness: the no-shader case at a concrete device and session. -/
theorem c6_witness :
    execCommand dev0 initSession (Command.setShaderConstants [] []) =
      ExecResult.err "No shader set" dev0 initSession [] :=
  c6_shader_constant_validation.1 dev0 initSession [] [] rfl

/-- The concrete init frame buffer is well formed. -/
lemma fb0_wf : fb0.wf := by
  refine ⟨by decide, by decide, ?_, ?_⟩ <;>
    (intro i hi; simp [fb0] at hi ⊢; omega)

/-- C7: a resize to the current dimensions changes nothing (the backbuffer,
its view and the depth/stencil attachment identities are untouched); a resize
to different dimensions allocates a fresh backbuffer and render target view
and, exactly when depth is enabled, a fresh depth/stencil texture and view,
updates the stored dimensions, and preserves the resource table, the depth
flag and the session. -/
theorem c7_resize_backbuffer :
    (∀ (depth : Bool) (fb : FrameBuffer),
       resizeBackBuffer depth fb fb.frameBufferWidth fb.frameBufferHeight = fb) ∧
    (∀ (depth : Bool) (fb : FrameBuffer) (w h : Nat),
       fb.wf → (fb.frameBufferWidth ≠ w ∨ fb.frameBufferHeight ≠ h) →
       (resizeBackBuffer depth fb w h).frameBufferWidth = w ∧
       (resizeBackBuffer depth fb w h).frameBufferHeight = h ∧
       (resizeBackBuffer depth fb w h).backBufferId ≠ fb.backBufferId ∧
       (resizeBackBuffer depth fb w h).renderTargetViewId ≠ fb.renderTargetViewId ∧
       (depth = true →
          (resizeBackBuffer depth fb w h).depthStencilTextureId ≠
            fb.depthStencilTextureId ∧
          (resizeBackBuffer depth fb w h).depthStencilViewId ≠ fb.depthStencilViewId) ∧
       (depth = false →
          (resizeBackBuffer depth fb w h).depthStencilTextureId =
            fb.depthStencilTextureId ∧
          (resizeBackBuffer depth fb w h).depthStencilViewId = fb.depthStencilViewId)) ∧
    (∀ (d : DevState) (s : Session) (w h : Nat),
       execCommand d s (Command.resize w h) =
         ExecResult.ok { d with fb := resizeBackBuffer d.depth d.fb w h } s [] ∧
       ({ d with fb := resizeBackBuffer d.depth d.fb w h } : DevState).resources =
         d.resources ∧
       ({ d with fb := resizeBackBuffer d.depth d.fb w h } : DevState).depth = d.depth) := by
  refine ⟨?_, ?_, ?_⟩
  · intro depth fb
    rw [resizeBackBuffer]
    simp
  · intro depth fb w h hwf hne
    obtain ⟨hbb, hrtv, hdst, hdsv⟩ := hwf
    rw [resizeBackBuffer, if_pos hne]
    cases depth with
    | false =>
      refine ⟨rfl, rfl, by simp; omega, by simp; omega, ?_, fun _ => ⟨rfl, rfl⟩⟩
      intro hff
      cases hff
    | true =>
      refine ⟨rfl, rfl, by simp; omega, by simp; omega, ?_, ?_⟩
      · intro _
        constructor
        · cases hx : fb.depthStencilTextureId with
          | none => simp [hx]
          | some i =>
            have hi := hdst i hx
            simp only [hx, ne_eq, Option.some.injEq, if_true]
            intro heq
            omega
        · cases hx : fb.depthStencilViewId with
          | none => simp [hx]
          | some i =>
            have hi := hdsv i hx
            simp only [hx, ne_eq, Option.some.injEq, if_true]
            intro heq
            omega
      · intro hff
        cases hff
  · intro d s w h
    exact ⟨rfl, rfl, rfl⟩

/-- C7 witness: resizing the concrete 640 x 480 frame buffer to 800 x 600
updates the dimensions and allocates a fresh backbuffer. -/
theorem c7_witness :
    (resizeBackBuffer true fb0 800 600).frameBufferWidth = 800 ∧
    (resizeBackBuffer true fb0 800 600).backBufferId ≠ fb0.backBufferId :=
  ⟨(c7_resize_backbuffer.2.1 true fb0 800 600 fb0_wf (by decide)).1,
   (c7_resize_backbuffer.2.1 true fb0 800 600 fb0_wf (by decide)).2.2.1⟩

/-- C8: an exception raised while executing a command is caught at the
render-thread loop boundary: the thrown error is logged, the remaining
commands of the buffer being drained are dropped, and the loop carries on
processing the remaining queued buffers from a fresh session — the render
thread is not terminated. -/
theorem c8_exception_caught_and_loop_continues :
    ∀ (d : DevState) (b : List Command) (rest : List (List Command)) (e : String)
      (d' : DevState) (s' : Session) (effs : List Effect) (dropped : List Command),
      drainBuffer d initSession b = DrainResult.errored e d' s' effs dropped →
      renderLoop d (b :: rest) =
        ((renderLoop d' rest).1,
         effs ++ (renderLoop d' rest).2.1,
         e :: (renderLoop d' rest).2.2) := by
  intro d b rest e d' s' effs dropped hdrain
  rw [renderLoop, renderLoopAux, hdrain]
  simp [renderLoop]

/-- C8 witness: a buffer whose first command throws ("No shader set") is
logged and the following queued buffer still executes its present. -/
theorem c8_witness :
    renderLoop dev0 [[Command.setShaderConstants [] []], [Command.present]] =
      (dev0, [Effect.presentSwapChain], ["No shader set"]) := by
  have h := c8_exception_caught_and_loop_continues dev0
    [Command.setShaderConstants [] []] [[Command.present]] "No shader set"
    dev0 initSession [] [] (by decide)
  rw [h]
  decide

/-- A populated slot holds some resource. -/
lemma slotPopulated_elim (res : List (Option Resource)) (h : Nat)
    (hpop : slotPopulated res h) :
    ∃ x, res[h - 1]? = Option.some (Option.some x) := by
  rw [slotPopulated] at hpop
  cases hx : res[h - 1]? with
  | none => rw [hx] at hpop; simp at hpop
  | some slot =>
    cases slot with
    | none => rw [hx] at hpop; simp at hpop
    | some x => exact ⟨x, rfl⟩

/-- A slot holding some resource is populated. -/
lemma slotPopulated_intro (res : List (Option Resource)) (h : Nat) (x : Resource)
    (hx : res[h - 1]? = Option.some (Option.some x)) : slotPopulated res h := by
  rw [slotPopulated, hx]
  rfl

/-- Exact behaviour of the init-command store pattern for a positive in-range
handle: the table grows to exactly max(size, handle) by appending empty slots,
slot handle-1 receives the resource, and every other slot is untouched. -/
lemma storeResource_spec (res : List (Option Resource)) (h : Nat) (r : Resource)
    (res' : List (Option Resource)) (hh1 : 1 ≤ h) (hh2 : h < sizetWidth)
    (hst : storeResource res h r = Except.ok res') :
    res'.length = max res.length h ∧
    res'[h - 1]? = Option.some (Option.some r) ∧
    (∀ j, j < res.length → j ≠ h - 1 → res'[j]? = res[j]?) ∧
    (∀ j, res.length ≤ j → j + 1 < h → res'[j]? = Option.some Option.none) := by
  have hidx := slotIdx_of_pos h hh1 hh2
  rw [storeResource, hidx] at hst
  by_cases hgt : h > res.length
  · rw [if_pos hgt] at hst
    have hlen : (res ++ List.replicate (h - res.length) Option.none).length = h := by
      simp
      omega
    have hlt : h - 1 < (res ++ List.replicate (h - res.length) Option.none).length := by
      omega
    rw [if_pos hlt] at hst
    obtain rfl : (res ++ List.replicate (h - res.length) Option.none).set (h - 1)
        (Option.some r) = res' := by simpa using hst
    refine ⟨?_, ?_, ?_, ?_⟩
    · rw [List.length_set, hlen]
      omega
    · exact List.getElem?_set_eq_of_lt _ hlt
    · intro j hj hne
      rw [List.getElem?_set_ne (by omega), List.getElem?_append]
      rw [if_pos hj]
    · intro j hge hlt2
      rw [List.getElem?_set_ne (by omega), List.getElem?_append, if_neg (by omega),
        List.getElem?_replicate, if_pos (by omega)]
  · rw [if_neg hgt] at hst
    have hlt : h - 1 < res.length := by omega
    rw [if_pos hlt] at hst
    obtain rfl : res.set (h - 1) (Option.some r) = res' := by simpa using hst
    refine ⟨?_, List.getElem?_set_eq_of_lt _ hlt, ?_, ?_⟩
    · rw [List.length_set]
      omega
    · intro j hj hne
      rw [List.getElem?_set_ne (by omega)]
    · intro j hge hlt2
      exfalso
      omega

/-- Storing any resource never unpopulates another populated slot. -/
lemma storeResource_populated (res res' : List (Option Resource)) (hStore : Nat)
    (r : Resource) (h : Nat) (hst : storeResource res hStore r = Except.ok res')
    (hpop : slotPopulated res h) : slotPopulated res' h := by
  rw [storeResource] at hst
  by_cases hlt : slotIdx hStore <
      (if hStore > res.length
        then res ++ List.replicate (hStore - res.length) Option.none
        else res).length
  · rw [if_pos hlt] at hst
    obtain rfl :
        (if hStore > res.length
          then res ++ List.replicate (hStore - res.length) Option.none
          else res).set (slotIdx hStore) (Option.some r) = res' := by simpa using hst
    obtain ⟨x, hx⟩ := slotPopulated_elim res h hpop
    have hhl : h - 1 < res.length := by
      by_contra hcon
      rw [List.getElem?_eq_none (by omega)] at hx
      cases hx
    have hgrown :
        (if hStore > res.length
          then res ++ List.replicate (hStore - res.length) Option.none
          else res)[h - 1]? = Option.some (Option.some x) := by
      by_cases hgt : hStore > res.length
      · rw [if_pos hgt, List.getElem?_append, if_pos hhl]
        exact hx
      · rw [if_neg hgt]
        exact hx
    by_cases heq : slotIdx hStore = h - 1
    · refine slotPopulated_intro _ _ r ?_
      rw [← heq]
      refine List.getElem?_set_eq_of_lt _ ?_
      rw [heq]
      by_cases hgt : hStore > res.length
      · rw [if_pos hgt, List.length_append, List.length_replicate]
        omega
      · rw [if_neg hgt]
        omega
    · refine slotPopulated_intro _ _ x ?_
      rw [List.getElem?_set_ne heq]
      exact hgrown
  · rw [if_neg hlt] at hst
    cases hst

/-- One successfully executed command never unpopulates the slot of a handle
whose deleteResource it is not. -/
lemma exec_preserves_populated (c : Command) (d : DevState) (s : Session)
    (d' : DevState) (s' : Session) (effs : List Effect) (h : Nat)
    (hh1 : 1 ≤ h) (hh2 : h < sizetWidth) (hcb : cmdHandleBounded c)
    (hnd : ∀ h2, c = Command.deleteResource h2 → h2 ≠ h)
    (hex : execCommand d s c = ExecResult.ok d' s' effs)
    (hpop : slotPopulated d.resources h) : slotPopulated d'.resources h := by
  cases c with
  | deleteResource h2 =>
    have hne := hnd h2 rfl
    have hb : h2 < sizetWidth := hcb
    simp only [execCommand] at hex
    by_cases hlt : slotIdx h2 < d.resources.length
    · rw [if_pos hlt] at hex
      simp only [ExecResult.ok.injEq] at hex
      obtain ⟨rfl, rfl, rfl⟩ := hex
      obtain ⟨x, hx⟩ := slotPopulated_elim _ _ hpop
      refine slotPopulated_intro _ _ x ?_
      rw [List.getElem?_set_ne (slotIdx_ne h2 h hb hh1 hh2 hne)]
      exact hx
    · rw [if_neg hlt] at hex
      cases hex
  | initRenderTarget h2 cts dt =>
    cases hct : resolveTextures d cts with
    | error e => simp [execCommand, hct] at hex
    | ok colors =>
      cases hdt : getTextureRes d dt with
      | error e => simp [execCommand, hct, hdt] at hex
      | ok dtex =>
        cases hst : storeResource d.resources h2
            (Resource.renderTarget
              { colorViews := colors.filterMap id, depthStencilView := dtex }) with
        | error e => simp [execCommand, hct, hdt, hst] at hex
        | ok rs =>
          simp only [execCommand, hct, hdt, hst, ExecResult.ok.injEq] at hex
          obtain ⟨rfl, rfl, rfl⟩ := hex
          exact storeResource_populated _ _ _ _ _ hst hpop
  | initBlendState h2 desc =>
    cases hst : storeResource d.resources h2 (Resource.blendState desc) with
    | error e => simp [execCommand, hst] at hex
    | ok rs =>
      simp only [execCommand, hst, ExecResult.ok.injEq] at hex
      obtain ⟨rfl, rfl, rfl⟩ := hex
      exact storeResource_populated _ _ _ _ _ hst hpop
  | initBuffer h2 size =>
    cases hst : storeResource d.resources h2 (Resource.buffer size) with
    | error e => simp [execCommand, hst] at hex
    | ok rs =>
      simp only [execCommand, hst, ExecResult.ok.injEq] at hex
      obtain ⟨rfl, rfl, rfl⟩ := hex
      exact storeResource_populated _ _ _ _ _ hst hpop
  | initShader h2 shd =>
    cases hst : storeResource d.resources h2 (Resource.shader shd) with
    | error e => simp [execCommand, hst] at hex
    | ok rs =>
      simp only [execCommand, hst, ExecResult.ok.injEq] at hex
      obtain ⟨rfl, rfl, rfl⟩ := hex
      exact storeResource_populated _ _ _ _ _ hst hpop
  | initTexture h2 desc =>
    cases hst : storeResource d.resources h2 (Resource.texture desc) with
    | error e => simp [execCommand, hst] at hex
    | ok rs =>
      simp only [execCommand, hst, ExecResult.ok.injEq] at hex
      obtain ⟨rfl, rfl, rfl⟩ := hex
      exact storeResource_populated _ _ _ _ _ hst hpop
  | resize w hh =>
    simp only [execCommand, ExecResult.ok.injEq] at hex
    obtain ⟨rfl, -, -⟩ := hex
    exact hpop
  | present =>
    simp only [execCommand, ExecResult.ok.injEq] at hex
    obtain ⟨rfl, -, -⟩ := hex
    exact hpop
  | setRenderTarget h2 =>
    simp only [execCommand] at hex
    repeat' split at hex
    all_goals
      first
        | exact ExecResult.noConfusion hex
        | (simp only [ExecResult.ok.injEq] at hex
           obtain ⟨rfl, -, -⟩ := hex
           exact hpop)
  | clearRenderTarget cc cd cs2 col dep sten =>
    simp only [execCommand] at hex
    repeat' split at hex
    all_goals
      first
        | exact ExecResult.noConfusion hex
        | (simp only [ExecResult.ok.injEq] at hex
           obtain ⟨rfl, -, -⟩ := hex
           exact hpop)
  | setScissorTest en rect =>
    simp only [execCommand, ExecResult.ok.injEq] at hex
    obtain ⟨rfl, -, -⟩ := hex
    exact hpop
  | setPipelineState bs sh cm fm =>
    simp only [execCommand] at hex
    repeat' split at hex
    all_goals
      first
        | exact ExecResult.noConfusion hex
        | (simp only [ExecResult.ok.injEq] at hex
           obtain ⟨rfl, -, -⟩ := hex
           exact hpop)
  | setShaderConstants fc vc =>
    simp only [execCommand] at hex
    repeat' split at hex
    all_goals
      first
        | exact ExecResult.noConfusion hex
        | (simp only [ExecResult.ok.injEq] at hex
           obtain ⟨rfl, -, -⟩ := hex
           exact hpop)

/-- Over any successfully executed command sequence that contains no
deleteResource for a handle, a populated slot for that handle stays
populated. -/
lemma execList_preserves_populated (cs : List Command) :
    ∀ {d s d' s' effs} (h : Nat),
      1 ≤ h → h < sizetWidth →
      (∀ c ∈ cs, cmdHandleBounded c) →
      (∀ h2, Command.deleteResource h2 ∈ cs → h2 ≠ h) →
      slotPopulated d.resources h →
      execList d s cs = ExecResult.ok d' s' effs →
      slotPopulated d'.resources h := by
  induction cs with
  | nil =>
    intro d s d' s' effs h _ _ _ _ hpop hex
    obtain ⟨rfl, -, -⟩ : d = d' ∧ s = s' ∧ [] = effs := by simpa [execList] using hex
    exact hpop
  | cons c cs ih =>
    intro d s d' s' effs h hh1 hh2 hcb hnd hpop hex
    cases hec : execCommand d s c with
    | err e dd ss ee => simp [execList, hec] at hex
    | ok d1 s1 e1 =>
      simp only [execList, hec] at hex
      cases hrest : execList d1 s1 cs with
      | err e2 d2 s2 ee2 => simp [hrest] at hex
      | ok d2 s2 e2 =>
        simp only [hrest, ExecResult.ok.injEq] at hex
        obtain ⟨rfl, rfl, rfl⟩ := hex
        have hpop1 := exec_preserves_populated c d s d1 s1 e1 h hh1 hh2
          (hcb c (by simp)) (fun h2 hc => hnd h2 (by simp [hc])) hec hpop
        exact ih h hh1 hh2 (fun x hx => hcb x (by simp [hx]))
          (fun h2 hmem => hnd h2 (by simp [hmem])) hpop1 hrest

/-- C9: the resource-table invariant.  (1) An init-command store for handle h
grows the table to exactly max(size, h) by appending empty slots, assigns only
slot h-1, and never reorders or disturbs any other slot.  (2) Executing an
init command (initBuffer shown; all init* share the store pattern) populates
slot h-1.  (3) Executing deleteResource h empties exactly slot h-1.  (4) Over
any successfully executed command sequence containing no deleteResource for h,
a populated slot h-1 stays populated, so handles remain stable. -/
theorem c9_resource_table_invariant :
    (∀ (res : List (Option Resource)) (h : Nat) (r : Resource)
       (res' : List (Option Resource)),
       1 ≤ h → h < sizetWidth → storeResource res h r = Except.ok res' →
       res'.length = max res.length h ∧
       res'[h - 1]? = Option.some (Option.some r) ∧
       (∀ j, j < res.length → j ≠ h - 1 → res'[j]? = res[j]?) ∧
       (∀ j, res.length ≤ j → j + 1 < h → res'[j]? = Option.some Option.none)) ∧
    (∀ (d : DevState) (s : Session) (h size : Nat) (d' : DevState) (s' : Session)
       (effs : List Effect),
       1 ≤ h → h < sizetWidth →
       execCommand d s (Command.initBuffer h size) = ExecResult.ok d' s' effs →
       slotPopulated d'.resources h) ∧
    (∀ (d : DevState) (s : Session) (h : Nat) (d' : DevState) (s' : Session)
       (effs : List Effect),
       1 ≤ h → h < sizetWidth →
       execCommand d s (Command.deleteResource h) = ExecResult.ok d' s' effs →
       d'.resources[h - 1]? = Option.some Option.none) ∧
    (∀ (cs : List Command) (d : DevState) (s : Session) (d' : DevState)
       (s' : Session) (effs : List Effect) (h : Nat),
       1 ≤ h → h < sizetWidth →
       (∀ c ∈ cs, cmdHandleBounded c) →
       (∀ h2, Command.deleteResource h2 ∈ cs → h2 ≠ h) →
       slotPopulated d.resources h →
       execList d s cs = ExecResult.ok d' s' effs →
       slotPopulated d'.resources h) := by
  refine ⟨storeResource_spec, ?_, ?_, ?_⟩
  · intro d s h size d' s' effs hh1 hh2 hex
    cases hst : storeResource d.resources h (Resource.buffer size) with
    | error e => simp [execCommand, hst] at hex
    | ok rs =>
      simp only [execCommand, hst, ExecResult.ok.injEq] at hex
      obtain ⟨rfl, rfl, rfl⟩ := hex
      exact slotPopulated_intro _ _ (Resource.buffer size)
        (storeResource_spec d.resources h (Resource.buffer size) rs hh1 hh2 hst).2.1
  · intro d s h d' s' effs hh1 hh2 hex
    simp only [execCommand] at hex
    by_cases hlt : slotIdx h < d.resources.length
    · rw [if_pos hlt] at hex
      simp only [ExecResult.ok.injEq] at hex
      obtain ⟨rfl, rfl, rfl⟩ := hex
      have hidx := slotIdx_of_pos h hh1 hh2
      rw [hidx] at hlt
      simp only []
      rw [← hidx, List.getElem?_set_eq_of_lt _ (by rw [hidx]; exact hlt)]
    · rw [if_neg hlt] at hex
      cases hex
  · intro cs d s d' s' effs h hh1 hh2 hcb hnd hpop hex
    exact execList_preserves_populated cs h hh1 hh2 hcb hnd hpop hex

/-- C9 witness: starting from a table whose slot 0 (handle 1) is populated,
executing an init for handle 2 followed by its delete and a present leaves
handle 1 populated. -/
theorem c9_witness :
    slotPopulated
      ({ dev0 with
          resources := [Option.some (Resource.buffer 4), Option.none] } : DevState).resources
      1 :=
  c9_resource_table_invariant.2.2.2
    [Command.initBuffer 2 5, Command.deleteResource 2, Command.present]
    { dev0 with resources := [Option.some (Resource.buffer 4)] } initSession
    { dev0 with resources := [Option.some (Resource.buffer 4), Option.none] }
    initSession [Effect.presentSwapChain] 1
    (by decide) (by decide)
    (by intro c hc; fin_cases hc <;> simp only [cmdHandleBounded] <;> trivial)
    (by intro h2 hmem; simp at hmem; omega)
    (slotPopulated_intro _ _ (Resource.buffer 4) (by decide)) (by decide)

/-- C10: executing deleteResource h accesses slot h-1 with no bounds or
emptiness check; the wrapped unsigned index makes the access in bounds exactly
when 1 <= h <= table size, and handle 0 underflows to the largest size_t
value, so it is never a valid argument. -/
theorem c10_delete_handle_bounds :
    slotIdx 0 = sizetWidth - 1 ∧
    ∀ (d : DevState) (s : Session) (h : Nat),
      h < sizetWidth → d.resources.length < sizetWidth →
      ((execCommand d s (Command.deleteResource h)).isOk = true ↔
        1 ≤ h ∧ h ≤ d.resources.length) := by
  refine ⟨slotIdx_zero, ?_⟩
  intro d s h hh hlen
  simp only [execCommand]
  by_cases hlt : slotIdx h < d.resources.length
  · rw [if_pos hlt]
    simp only [ExecResult.isOk]
    constructor
    · intro _
      rcases Nat.eq_zero_or_pos h with hz | hp
      · subst hz
        rw [slotIdx_zero] at hlt
        rw [sizetWidth_eq] at hlt hlen
        omega
      · rw [slotIdx_of_pos h hp hh] at hlt
        omega
    · intro _
      trivial
  · rw [if_neg hlt]
    simp only [ExecResult.isOk]
    constructor
    · intro hfalse
      cases hfalse
    · intro hcon
      exfalso
      apply hlt
      rw [slotIdx_of_pos h hcon.1 hh]
      omega

/-- C10 witness: deleting handle 1 from a one-slot table is in bounds and
succeeds; deleting handle 0 from the same table is out of bounds. -/
theorem c10_witness :
    (execCommand dev1 initSession (Command.deleteResource 1)).isOk = true ∧
    ¬ (execCommand dev1 initSession (Command.deleteResource 0)).isOk = true :=
  ⟨(c10_delete_handle_bounds.2 dev1 initSession 1 (by decide) (by decide)).mpr
      (by decide),
   fun hok => by
     have hcon := (c10_delete_handle_bounds.2 dev1 initSession 0 (by decide)
       (by decide)).mp hok
     simp at hcon⟩

end Ouzel
